import Mathlib

/-!
Shallow embedding of the ICE TestPortal serverless backend
(`src/lib/tokens.ts`, `src/lib/secrets.ts`, `src/lib/testportal.ts`,
`src/handlers/requestToken.ts`, `src/handlers/getAccessCode.ts`).

External interactions (DynamoDB, Secrets Manager, the TestPortal HTTP API)
are passed in explicitly: the DynamoDB table is a function from token
strings to lookup results, the Secrets Manager backing store and the
provider HTTP reply are oracles describing what the one call of the
handler would observe.  Every function additionally returns a trace of the
external effects it performs (store reads/writes, provider fetches,
secret fetches), so that ordering and absence-of-call properties can be
stated.  Times are Unix epoch seconds as in the source.
-/

namespace IceTestPortal

/-- A JavaScript runtime value for a request-body field: either a string or
some non-string value (number, null, object, undefined, ...).  The handlers
only ever distinguish "a string" from "anything else". -/
inductive JsValue where
  | str : String → JsValue
  | nonString : JsValue
  deriving DecidableEq, Repr

/-- The string content of a `JsValue` (used after the shape guard has
established that the value is a string; `""` for non-strings). -/
def JsValue.getStr : JsValue → String
  | .str s => s
  | .nonString => ""

/-- An item as read back from the DynamoDB tokens table.  The fields are
optional so that malformed records (missing attributes) are representable:
the TypeScript cast `result.Item as TokenRecord` does not check them, and
`record.ttl` may evaluate to `undefined`. -/
structure StoredItem where
  ttl : Option Nat
  createdAt : Option Nat
  deriving DecidableEq, Repr

/-- Outcome of a DynamoDB `GetCommand` for one key: the item, absence of an
item, or the send call throwing (store unreachable). -/
inductive LookupResult where
  | found : StoredItem → LookupResult
  | notFound : LookupResult
  | storeError : LookupResult
  deriving DecidableEq, Repr

/-- The JSON payload `requestAccessCode` posts to the provider:
`{count: 1, sendInvitationOnTestActivation: false}`. -/
structure ProviderPayload where
  count : Nat
  sendInvitationOnTestActivation : Bool
  deriving DecidableEq, Repr

/-- One external effect performed by a handler: a DynamoDB get/put/delete, a
provider HTTP call (with the testId in the URL and the posted payload), or a
Secrets Manager fetch. -/
inductive Effect where
  | storeGet : String → Effect
  | storePut : String → StoredItem → Effect
  | storeDelete : String → Effect
  | providerFetch : String → ProviderPayload → Effect
  | secretFetch : String → Effect
  deriving DecidableEq, Repr

/-- Whether an effect mutates the token store. -/
def Effect.isMutation : Effect → Bool
  | .storePut _ _ => true
  | .storeDelete _ => true
  | _ => false

/-- Whether an effect is a call to the external provider. -/
def Effect.isProviderCall : Effect → Bool
  | .providerFetch _ _ => true
  | _ => false

/-- A trace contains no provider call. -/
def noProviderCall (effs : List Effect) : Bool :=
  effs.all fun e => !e.isProviderCall

/-- Interpretation of one effect on the token store (gets, provider calls
and secret fetches leave it unchanged). -/
def applyEffect (store : String → LookupResult) : Effect → (String → LookupResult)
  | .storePut t item => fun s => if s = t then .found item else store s
  | .storeDelete t => fun s => if s = t then .notFound else store s
  | _ => store

/-- Interpretation of a trace of effects on the token store. -/
def applyEffects (store : String → LookupResult) (effs : List Effect) :
    String → LookupResult :=
  effs.foldl applyEffect store

/-- Token validity period: 15 minutes in seconds (`TOKEN_TTL_SECONDS`). -/
def TOKEN_TTL_SECONDS : Nat := 15 * 60

/-- The JavaScript comparison `record.ttl < now` where `record.ttl` may be
`undefined`: in JavaScript `undefined < n` evaluates to `false`. -/
def jsTtlLt (ttl : Option Nat) (now : Nat) : Bool :=
  match ttl with
  | none => false
  | some t => t < now

/-- Embedding of `validateToken` (src/lib/tokens.ts).  Checks the input
shape (`!token || typeof token !== string`), performs one store lookup,
treats an absent record or a thrown lookup error as invalid, and rejects a
present record only when `record.ttl < now`.  Returns the boolean together
with the trace of store effects performed. -/
def validateToken (store : String → LookupResult) (now : Nat) (token : JsValue) :
    Bool × List Effect :=
  match token with
  | .nonString => (false, [])
  | .str s =>
    if s = "" then (false, [])
    else
      match store s with
      | .storeError => (false, [.storeGet s])
      | .notFound => (false, [.storeGet s])
      | .found record =>
        if jsTtlLt record.ttl now then (false, [.storeGet s])
        else (true, [.storeGet s])

/-- The DynamoDB item written by `storeToken` (src/lib/tokens.ts) at time
`now`: `ttl = now + TOKEN_TTL_SECONDS`, `createdAt = now`. -/
def storeTokenItem (now : Nat) : StoredItem :=
  { ttl := some (now + TOKEN_TTL_SECONDS), createdAt := some now }

/-- The single allowed caller origin (`ALLOWED_ORIGIN` in both handlers). -/
def ALLOWED_ORIGIN : String := "https://my.icecampus.com"

/-- Body of an API Gateway response, by shape: empty (preflight), a bare
`{message}`, a `{message, error}`, a `{token}`, or an
`{accessCode, _dev?}` success body (the boolean records whether the `_dev`
flag is present). -/
inductive RespBody where
  | empty : RespBody
  | message : String → RespBody
  | messageErr : String → Option String → RespBody
  | token : String → RespBody
  | access : Option String → Bool → RespBody
  deriving DecidableEq, Repr

/-- Whether a response body is a `{token}` body (carries a token). -/
def RespBody.isTokenBody : RespBody → Bool
  | .token _ => true
  | _ => false

/-- An API Gateway response: status code and body. -/
structure Response where
  statusCode : Nat
  body : RespBody
  deriving DecidableEq, Repr

/-- The parts of an API Gateway event that `requestToken` reads: HTTP
method and the (already coalesced) `origin`/`Origin` header. -/
structure TokenEvent where
  httpMethod : String
  origin : Option String
  deriving DecidableEq, Repr

/-- Embedding of the `requestToken` handler (src/handlers/requestToken.ts).
`freshToken` is the value produced by `generateToken()`; `writeRes` is the
outcome of the DynamoDB put inside `storeToken` (`.error e` models the send
throwing, with `e` the thrown error message when it is an `Error`).
Returns the response, the token store after the handler, and the effect
trace. -/
def requestTokenHandler (ev : TokenEvent) (now : Nat) (freshToken : String)
    (writeRes : Except (Option String) Unit) (store : String → LookupResult) :
    Response × (String → LookupResult) × List Effect :=
  if ev.httpMethod = "OPTIONS" then (⟨204, .empty⟩, store, [])
  else if ev.httpMethod ≠ "POST" then (⟨405, .message "Method not allowed"⟩, store, [])
  else if ev.origin ≠ some ALLOWED_ORIGIN then (⟨403, .message "Forbidden"⟩, store, [])
  else
    match writeRes with
    | .ok _ =>
      (⟨200, .token freshToken⟩,
       fun s => if s = freshToken then .found (storeTokenItem now) else store s,
       [.storePut freshToken (storeTokenItem now)])
    | .error e =>
      (⟨500, .messageErr "Internal server error" (some (e.getD "Unknown error"))⟩,
       store, [.storePut freshToken (storeTokenItem now)])

/-- What the Secrets Manager `GetSecretValue` call for a name would observe:
a `SecretString` value, a response without a string value, a
`ResourceNotFoundException`, or another thrown error. -/
inductive BackingSecret where
  | value : String → BackingSecret
  | noString : BackingSecret
  | notFoundExc : BackingSecret
  | otherError : BackingSecret
  deriving DecidableEq, Repr

/-- Embedding of `getSecret` (src/lib/secrets.ts).  The module-level
`secretsCache` map is threaded explicitly as an association list.  A cached
name is returned without contacting the backing store; otherwise one fetch
happens, a truthy `SecretString` is cached and returned, and every other
outcome (empty string, missing string, not-found, other error) yields
`none` without caching. -/
def getSecret (cache : List (String × String)) (backing : BackingSecret)
    (name : String) : Option String × List (String × String) × List Effect :=
  match cache.lookup name with
  | some v => (some v, cache, [])
  | none =>
    match backing with
    | .value v =>
      if v = "" then (none, cache, [.secretFetch name])
      else (some v, (name, v) :: cache, [.secretFetch name])
    | .noString => (none, cache, [.secretFetch name])
    | .notFoundExc => (none, cache, [.secretFetch name])
    | .otherError => (none, cache, [.secretFetch name])

/-- Mock access code returned in development mode (`MOCK_ACCESS_CODE`). -/
def MOCK_ACCESS_CODE : String := "ABC123MOCK"

/-- One entry of the provider response `accessCodes` array; each of the
three candidate field names may be absent. -/
structure AccessCodeEntry where
  accessCode : Option String
  access_code : Option String
  code : Option String
  deriving DecidableEq, Repr

/-- The parsed JSON body of a successful provider response
(`TestPortalApiResponse`): the `accessCodes` array may be absent. -/
structure TestPortalApiResponse where
  accessCodes : Option (List AccessCodeEntry)
  deriving DecidableEq, Repr

/-- What the provider `fetch` call would observe: the call throwing (with
the error message when the thrown value is an `Error`), a non-ok HTTP
response with status and statusText, or an ok response with parsed JSON. -/
inductive FetchOutcome where
  | thrown : Option String → FetchOutcome
  | respErr : Nat → String → FetchOutcome
  | respOk : TestPortalApiResponse → FetchOutcome
  deriving DecidableEq, Repr

/-- JavaScript `a || b` on optional strings: `undefined` and `""` are
falsy, any other string short-circuits. -/
def jsOrStr (a b : Option String) : Option String :=
  match a with
  | some s => if s = "" then b else some s
  | none => b

/-- JavaScript truthiness of an optional string (`undefined` and `""` are
falsy). -/
def jsTruthy (a : Option String) : Bool :=
  match a with
  | some s => s ≠ ""
  | none => false

/-- The access-code extraction of `requestAccessCode`:
`data.accessCodes?.[0]` followed by
`entry?.accessCode || entry?.access_code || entry?.code`. -/
def extractAccessCode (data : TestPortalApiResponse) : Option String :=
  let entry : Option AccessCodeEntry := data.accessCodes.bind List.head?
  jsOrStr (jsOrStr (entry.bind AccessCodeEntry.accessCode)
    (entry.bind AccessCodeEntry.access_code)) (entry.bind AccessCodeEntry.code)

/-- Result type of `requestAccessCode` (`AccessCodeResult`); the optional
`isDevelopmentMode` field is represented as a boolean (absent = `false`,
its only consumer tests truthiness). -/
structure AccessCodeResult where
  success : Bool
  accessCode : Option String
  error : Option String
  isDevelopmentMode : Bool
  deriving DecidableEq, Repr

/-- Embedding of `requestAccessCode` (src/lib/testportal.ts).  `apiKey` is
the result of `getTestPortalApiKey()`; a falsy key means development mode:
the fixed mock code is returned with the dev flag and no fetch happens.
Otherwise exactly one provider fetch happens with the constant payload, and
its outcome is classified: thrown → caught into a failure result; non-ok →
failure carrying the upstream status and statusText; ok → the access code
is extracted by the candidate-field chain, a falsy result being a failure. -/
def requestAccessCode (apiKey : Option String) (fo : FetchOutcome)
    (testId : String) : AccessCodeResult × List Effect :=
  if jsTruthy apiKey = false then
    ({ success := true, accessCode := some MOCK_ACCESS_CODE, error := none,
       isDevelopmentMode := true }, [])
  else
    let effs : List Effect := [.providerFetch testId ⟨1, false⟩]
    match fo with
    | .thrown msg =>
      ({ success := false, accessCode := none,
         error := some (msg.getD "Unknown error occurred"),
         isDevelopmentMode := false }, effs)
    | .respErr status statusText =>
      ({ success := false, accessCode := none,
         error := some ("TestPortal API returned " ++ toString status ++ ": "
           ++ statusText),
         isDevelopmentMode := false }, effs)
    | .respOk data =>
      let ac := extractAccessCode data
      if jsTruthy ac then
        ({ success := true, accessCode := ac, error := none,
           isDevelopmentMode := false }, effs)
      else
        ({ success := false, accessCode := none,
           error := some "TestPortal API response did not contain an access code",
           isDevelopmentMode := false }, effs)

/-- The parsed request body of `getAccessCode`: the `token` and `testId`
fields plus whatever extra fields the JSON object carried (never read by
the handler). -/
structure ReqObj where
  token : JsValue
  testId : JsValue
  extra : List (String × JsValue)
  deriving DecidableEq, Repr

/-- The result of `JSON.parse` on the request body: no body (so
`requestBody = null`), a parse failure, a JSON value that is not an
object, or an object. -/
inductive BodyParse where
  | noBody : BodyParse
  | malformed : BodyParse
  | nonObject : BodyParse
  | parsed : ReqObj → BodyParse
  deriving DecidableEq, Repr

/-- The field check `typeof x === string && x.length > 0`. -/
def jsIsNonEmptyString : JsValue → Bool
  | .str s => s ≠ ""
  | .nonString => false

/-- Embedding of `validateRequestBody` (src/handlers/getAccessCode.ts):
the body must be an object whose `token` and `testId` are non-empty
strings. -/
def validateRequestBody : BodyParse → Bool
  | .parsed o => jsIsNonEmptyString o.token && jsIsNonEmptyString o.testId
  | _ => false

/-- The parts of an API Gateway event that `getAccessCode` reads: HTTP
method, coalesced origin header, and the body parse outcome. -/
structure ExchangeEvent where
  httpMethod : String
  origin : Option String
  body : BodyParse
  deriving DecidableEq, Repr

/-- Embedding of the `getAccessCode` handler (src/handlers/getAccessCode.ts).
Checks, in source order: OPTIONS preflight, method, origin, body JSON
validity, body shape; then validates the token against the store at `now`,
and only on a valid token calls `requestAccessCode` with `apiKey` and the
provider oracle `fo`.  Returns the response and the concatenated effect
trace. -/
def getAccessCodeHandler (ev : ExchangeEvent) (store : String → LookupResult)
    (now : Nat) (apiKey : Option String) (fo : FetchOutcome) :
    Response × List Effect :=
  if ev.httpMethod = "OPTIONS" then (⟨204, .empty⟩, [])
  else if ev.httpMethod ≠ "POST" then (⟨405, .message "Method not allowed"⟩, [])
  else if ev.origin ≠ some ALLOWED_ORIGIN then (⟨403, .message "Forbidden"⟩, [])
  else
    match ev.body with
    | .malformed => (⟨400, .message "Invalid JSON in request body"⟩, [])
    | .noBody =>
      (⟨400, .message "Missing required fields: token and testId are required"⟩, [])
    | .nonObject =>
      (⟨400, .message "Missing required fields: token and testId are required"⟩, [])
    | .parsed o =>
      if validateRequestBody (.parsed o) = false then
        (⟨400, .message "Missing required fields: token and testId are required"⟩, [])
      else
        let v := validateToken store now (.str o.token.getStr)
        if v.1 = false then
          (⟨401, .message "Invalid or expired token"⟩, v.2)
        else
          let r := requestAccessCode apiKey fo o.testId.getStr
          if r.1.success = false then
            (⟨502, .messageErr "Failed to retrieve access code from TestPortal"
              r.1.error⟩, v.2 ++ r.2)
          else
            (⟨200, .access r.1.accessCode r.1.isDevelopmentMode⟩, v.2 ++ r.2)

/-- Iterated validation: call `validateToken` `n` times in a row, threading
the store through the interpretation of each call's effects, and collect the
results. -/
def validateNTimes (store : String → LookupResult) (now : Nat) (v : JsValue) :
    Nat → List Bool
  | 0 => []
  | n + 1 =>
    let r := validateToken store now v
    r.1 :: validateNTimes (applyEffects store r.2) now v n

/-- An effect is either not a provider call, or a provider call whose posted
payload is exactly the constant `{count: 1, sendInvitationOnTestActivation:
false}` (so nothing request-specific beyond the URL testId is forwarded). -/
def forwardsFixedPayload : Effect → Bool
  | .providerFetch _ p => p.count == 1 && p.sendInvitationOnTestActivation == false
  | _ => true

/-- Concrete store used by witnesses: it holds exactly the record that an
issuance at time 100 writes for token "goodtok". -/
def wStore : String → LookupResult :=
  fun s => if s = "goodtok" then .found (storeTokenItem 100) else .notFound

/-- Concrete store used for claim C2: it holds exactly the record that an
issuance at time 0 writes for token "tok1". -/
def exStoreC2 : String → LookupResult :=
  fun s => if s = "tok1" then .found (storeTokenItem 0) else .notFound

theorem validateToken_str (store : String → LookupResult) (now : Nat)
    (s : String) : validateToken store now (.str s) =
      if s = "" then (false, []) else
        match store s with
        | .storeError => (false, [Effect.storeGet s])
        | .notFound => (false, [Effect.storeGet s])
        | .found record =>
          if jsTtlLt record.ttl now then (false, [Effect.storeGet s])
          else (true, [Effect.storeGet s]) := rfl

theorem validateToken_trace_shape (store : String → LookupResult) (now : Nat)
    (v : JsValue) : (validateToken store now v).2 = [] ∨
      ∃ s, (validateToken store now v).2 = [Effect.storeGet s] := by
  cases v with
  | nonString => exact Or.inl rfl
  | str s =>
    rw [validateToken_str]
    by_cases h : s = ""
    · simp [h]
    · rw [if_neg h]
      cases hs : store s with
      | found record =>
        dsimp only
        by_cases hl : jsTtlLt record.ttl now
        · rw [if_pos hl]; exact Or.inr ⟨s, rfl⟩
        · rw [if_neg hl]; exact Or.inr ⟨s, rfl⟩
      | notFound => exact Or.inr ⟨s, rfl⟩
      | storeError => exact Or.inr ⟨s, rfl⟩

theorem applyEffects_validateToken (store : String → LookupResult) (now : Nat)
    (v : JsValue) : applyEffects store (validateToken store now v).2 = store := by
  rcases validateToken_trace_shape store now v with h | ⟨s, h⟩ <;> rw [h] <;> rfl

theorem validateToken_trace_no_provider (store : String → LookupResult)
    (now : Nat) (v : JsValue) :
    noProviderCall (validateToken store now v).2 = true := by
  rcases validateToken_trace_shape store now v with h | ⟨s, h⟩ <;> rw [h] <;> rfl

theorem validateNTimes_replicate (store : String → LookupResult) (now : Nat)
    (v : JsValue) (hv : (validateToken store now v).1 = true) (n : Nat) :
    validateNTimes store now v n = List.replicate n true := by
  induction n with
  | zero => rfl
  | succ n ih =>
    show (validateToken store now v).1 ::
        validateNTimes (applyEffects store (validateToken store now v).2) now v n =
      List.replicate (n + 1) true
    rw [hv, applyEffects_validateToken, ih, List.replicate_succ]

/-- C2 counterexample: the claim says the validator rejects a token at any
time at or after the stored expiry timestamp even if the record is still
present.  Take a token issued at time 0 (so `createdAt = 0`, stored expiry
`0 + TOKEN_TTL_SECONDS = 900`) whose record the store still holds; at time
exactly 900 — at `createdAt + 15` minutes, at the stored expiry — the
validator still returns `true`, because the source only rejects when
`record.ttl < now` holds strictly. -/
theorem c2_valid_at_expiry_instant :
    exStoreC2 "tok1" = .found { ttl := some 900, createdAt := some 0 } ∧
    (validateToken exStoreC2 900 (JsValue.str "tok1")).1 = true := by
  decide

/-- C2 (amended): `validateToken` returns `false` at any time strictly
after the stored expiry timestamp (`now > ttl`, with `ttl = createdAt +
900` for issued tokens), even if the store still holds the record; and it
returns `false` for any string the store has no record for (never issued).
At the expiry instant itself a still-present record is accepted. -/
theorem c2_expired_or_unknown_invalid :
    (∀ (store : String → LookupResult) (now : Nat) (s : String)
       (rec : StoredItem) (tv : Nat),
       store s = .found rec → rec.ttl = some tv → tv < now →
       (validateToken store now (JsValue.str s)).1 = false) ∧
    (∀ (store : String → LookupResult) (now : Nat) (s : String),
       store s = .notFound →
       (validateToken store now (JsValue.str s)).1 = false) := by
  constructor
  · intro store now s rec tv hs ht hlt
    rw [validateToken_str]
    by_cases h : s = ""
    · simp [h]
    · rw [if_neg h, hs]
      have hl : jsTtlLt rec.ttl now = true := by
        rw [ht]; simpa [jsTtlLt] using hlt
      dsimp only
      rw [if_pos hl]
  · intro store now s hs
    rw [validateToken_str]
    by_cases h : s = ""
    · simp [h]
    · rw [if_neg h, hs]

/-- C2 witness: the token issued at time 0 is rejected at time 901 (one
second past its stored expiry) although its record is still in the store,
and a never-issued string is rejected as well. -/
theorem c2_expired_or_unknown_invalid_witness :
    (validateToken exStoreC2 901 (JsValue.str "tok1")).1 = false ∧
    (validateToken exStoreC2 901 (JsValue.str "neverissued")).1 = false :=
  ⟨c2_expired_or_unknown_invalid.1 exStoreC2 901 "tok1" (storeTokenItem 0)
    (0 + TOKEN_TTL_SECONDS) (by decide) rfl (by decide),
   c2_expired_or_unknown_invalid.2 exStoreC2 901 "neverissued" (by decide)⟩

/-- C3: `validateToken` is total and recovering: it is a function into
`Bool` (never throws) on every input; a non-string input and the empty
string return `false` with an empty effect trace (no store lookup is
performed); and a lookup that throws (store unreachable) is recovered into
`false` rather than propagated. -/
theorem c3_validate_total_recovering :
    (∀ (store : String → LookupResult) (now : Nat),
       validateToken store now JsValue.nonString = (false, [])) ∧
    (∀ (store : String → LookupResult) (now : Nat),
       validateToken store now (JsValue.str "") = (false, [])) ∧
    (∀ (store : String → LookupResult) (now : Nat) (s : String), s ≠ "" →
       store s = .storeError →
       validateToken store now (JsValue.str s) = (false, [Effect.storeGet s])) := by
  refine ⟨fun store now => rfl, fun store now => rfl,
    fun store now s h hs => ?_⟩
  rw [validateToken_str, if_neg h, hs]

/-- C3 witness: a lookup against an unreachable store returns `false` (with
the one attempted lookup in the trace) at a concrete input. -/
theorem c3_validate_total_recovering_witness :
    validateToken (fun _ => LookupResult.storeError) 0 (JsValue.str "tok") =
      (false, [Effect.storeGet "tok"]) :=
  c3_validate_total_recovering.2.2 (fun _ => LookupResult.storeError) 0 "tok"
    (by decide) rfl

/-- C4: validation has no side effects and is repeatable: its effect trace
contains no store mutation (no put, no delete), interpreting its effects
leaves the store unchanged, and validating a currently-valid token `n ≥ 2`
times in a row (threading the store through each call's effects) returns
`true` every time. -/
theorem c4_validate_no_side_effects :
    (∀ (store : String → LookupResult) (now : Nat) (v : JsValue),
       (validateToken store now v).2.all (fun e => !e.isMutation) = true) ∧
    (∀ (store : String → LookupResult) (now : Nat) (v : JsValue),
       applyEffects store (validateToken store now v).2 = store) ∧
    (∀ (store : String → LookupResult) (now : Nat) (v : JsValue) (n : Nat),
       2 ≤ n → (validateToken store now v).1 = true →
       validateNTimes store now v n = List.replicate n true) := by
  refine ⟨fun store now v => ?_, applyEffects_validateToken,
    fun store now v n _ hv => validateNTimes_replicate store now v hv n⟩
  rcases validateToken_trace_shape store now v with h | ⟨s, h⟩ <;> rw [h] <;> rfl

/-- C4 witness: the token stored at time 100 validates `true` three times
in a row at time 100. -/
theorem c4_validate_no_side_effects_witness :
    validateNTimes wStore 100 (JsValue.str "goodtok") 3 =
      List.replicate 3 true :=
  c4_validate_no_side_effects.2.2 wStore 100 (JsValue.str "goodtok") 3
    (by decide) (by decide)

theorem getAccessCodeHandler_post (b : BodyParse) (store : String → LookupResult)
    (now : Nat) (apiKey : Option String) (fo : FetchOutcome) :
    getAccessCodeHandler ⟨"POST", some ALLOWED_ORIGIN, b⟩ store now apiKey fo =
      match b with
      | .malformed => (⟨400, .message "Invalid JSON in request body"⟩, [])
      | .noBody =>
        (⟨400, .message "Missing required fields: token and testId are required"⟩, [])
      | .nonObject =>
        (⟨400, .message "Missing required fields: token and testId are required"⟩, [])
      | .parsed o =>
        if validateRequestBody (.parsed o) = false then
          (⟨400, .message "Missing required fields: token and testId are required"⟩, [])
        else
          let v := validateToken store now (.str o.token.getStr)
          if v.1 = false then
            (⟨401, .message "Invalid or expired token"⟩, v.2)
          else
            let r := requestAccessCode apiKey fo o.testId.getStr
            if r.1.success = false then
              (⟨502, .messageErr "Failed to retrieve access code from TestPortal"
                r.1.error⟩, v.2 ++ r.2)
            else
              (⟨200, .access r.1.accessCode r.1.isDevelopmentMode⟩, v.2 ++ r.2) := by
  unfold getAccessCodeHandler
  dsimp only
  rw [if_neg (show ¬(("POST" : String) = "OPTIONS") from by decide),
      if_neg (show ¬(("POST" : String) ≠ "POST") from fun hc => hc rfl),
      if_neg (show ¬(some ALLOWED_ORIGIN ≠ some ALLOWED_ORIGIN) from fun hc => hc rfl)]

theorem getAccessCodeHandler_main (s i : String) (x : List (String × JsValue))
    (store : String → LookupResult) (now : Nat) (apiKey : Option String)
    (fo : FetchOutcome) (hs : s ≠ "") (hi : i ≠ "") :
    getAccessCodeHandler ⟨"POST", some ALLOWED_ORIGIN, .parsed ⟨.str s, .str i, x⟩⟩
        store now apiKey fo =
      if (validateToken store now (.str s)).1 = false then
        (⟨401, .message "Invalid or expired token"⟩, (validateToken store now (.str s)).2)
      else if (requestAccessCode apiKey fo i).1.success = false then
        (⟨502, .messageErr "Failed to retrieve access code from TestPortal"
          (requestAccessCode apiKey fo i).1.error⟩,
         (validateToken store now (.str s)).2 ++ (requestAccessCode apiKey fo i).2)
      else
        (⟨200, .access (requestAccessCode apiKey fo i).1.accessCode
          (requestAccessCode apiKey fo i).1.isDevelopmentMode⟩,
         (validateToken store now (.str s)).2 ++ (requestAccessCode apiKey fo i).2) := by
  rw [getAccessCodeHandler_post]
  dsimp only [JsValue.getStr]
  rw [if_neg (show ¬(validateRequestBody
      (.parsed ⟨.str s, .str i, x⟩) = false) from by
    simp [validateRequestBody, jsIsNonEmptyString, hs, hi])]

theorem validateRequestBody_parsed (o : ReqObj)
    (h : validateRequestBody (.parsed o) = true) :
    ∃ s i x, o = ⟨.str s, .str i, x⟩ ∧ s ≠ "" ∧ i ≠ "" := by
  obtain ⟨t, i, x⟩ := o
  cases t with
  | nonString => simp [validateRequestBody, jsIsNonEmptyString] at h
  | str s =>
    cases i with
    | nonString => simp [validateRequestBody, jsIsNonEmptyString] at h
    | str si =>
      simp only [validateRequestBody, jsIsNonEmptyString, Bool.and_eq_true,
        decide_eq_true_eq] at h
      exact ⟨s, si, x, rfl, h.1, h.2⟩

theorem getAccessCodeHandler_guard_trace (ev : ExchangeEvent)
    (store : String → LookupResult) (now : Nat) (apiKey : Option String)
    (fo : FetchOutcome)
    (h : ¬(ev.httpMethod = "POST" ∧ ev.origin = some ALLOWED_ORIGIN ∧
      validateRequestBody ev.body = true)) :
    (getAccessCodeHandler ev store now apiKey fo).2 = [] := by
  obtain ⟨m, orig, b⟩ := ev
  unfold getAccessCodeHandler
  dsimp only at h ⊢
  by_cases h1 : m = "OPTIONS"
  · rw [if_pos h1]
  · rw [if_neg h1]
    by_cases h2 : m = "POST"
    · subst h2
      rw [if_neg (show ¬(("POST" : String) ≠ "POST") from fun hc => hc rfl)]
      by_cases h3 : orig = some ALLOWED_ORIGIN
      · subst h3
        rw [if_neg (show ¬(some ALLOWED_ORIGIN ≠ some ALLOWED_ORIGIN) from
          fun hc => hc rfl)]
        cases b with
        | malformed => rfl
        | noBody => rfl
        | nonObject => rfl
        | parsed o =>
          dsimp only
          have hb : validateRequestBody (.parsed o) = false := by
            rcases Bool.eq_false_or_eq_true (validateRequestBody (.parsed o)) with
              ht | hf
            · exact absurd ⟨rfl, rfl, ht⟩ h
            · exact hf
          rw [if_pos hb]
      · rw [if_pos h3]
    · rw [if_pos h2]

/-- C6: when the request body fails the shape check (missing or empty
`token` or `testId`, non-string fields, a non-object or unparseable body),
the handler returns status 400 and its effect trace is empty: no store
lookup and no provider call is performed. -/
theorem c6_bad_request_no_calls (ev : ExchangeEvent)
    (store : String → LookupResult) (now : Nat) (apiKey : Option String)
    (fo : FetchOutcome) (hm : ev.httpMethod = "POST")
    (ho : ev.origin = some ALLOWED_ORIGIN)
    (hb : validateRequestBody ev.body = false) :
    (getAccessCodeHandler ev store now apiKey fo).1.statusCode = 400 ∧
    (getAccessCodeHandler ev store now apiKey fo).2 = [] := by
  obtain ⟨m, orig, b⟩ := ev
  dsimp only at hm ho hb
  subst hm; subst ho
  rw [getAccessCodeHandler_post]
  cases b with
  | malformed => exact ⟨rfl, rfl⟩
  | noBody => exact ⟨rfl, rfl⟩
  | nonObject => exact ⟨rfl, rfl⟩
  | parsed o =>
    dsimp only
    rw [if_pos hb]
    exact ⟨rfl, rfl⟩

/-- C6 witness: a body whose `token` field is the empty string yields
status 400 with an empty effect trace. -/
theorem c6_bad_request_no_calls_witness :
    (getAccessCodeHandler
        ⟨"POST", some ALLOWED_ORIGIN, .parsed ⟨.str "", .str "t1", []⟩⟩
        wStore 100 (some "key") (FetchOutcome.respOk ⟨none⟩)).1.statusCode = 400 ∧
    (getAccessCodeHandler
        ⟨"POST", some ALLOWED_ORIGIN, .parsed ⟨.str "", .str "t1", []⟩⟩
        wStore 100 (some "key") (FetchOutcome.respOk ⟨none⟩)).2 = [] :=
  c6_bad_request_no_calls
    ⟨"POST", some ALLOWED_ORIGIN, .parsed ⟨.str "", .str "t1", []⟩⟩
    wStore 100 (some "key") (FetchOutcome.respOk ⟨none⟩) rfl rfl (by decide)

/-- C1: the exchange handler consults the token validator before the
provider: whenever `validateToken` returns `false` for the `token` field of
the request body, the handler's effect trace contains no provider call at
all, and if the request passed the method, origin and body-shape checks the
response is exactly the 401 Unauthorized error. -/
theorem c1_validator_gates_provider (ev : ExchangeEvent)
    (store : String → LookupResult) (now : Nat) (apiKey : Option String)
    (fo : FetchOutcome) (o : ReqObj) (hb : ev.body = .parsed o)
    (hv : (validateToken store now o.token).1 = false) :
    noProviderCall (getAccessCodeHandler ev store now apiKey fo).2 = true ∧
    (ev.httpMethod = "POST" → ev.origin = some ALLOWED_ORIGIN →
      validateRequestBody ev.body = true →
      (getAccessCodeHandler ev store now apiKey fo).1 =
        ⟨401, RespBody.message "Invalid or expired token"⟩) := by
  by_cases hg : ev.httpMethod = "POST" ∧ ev.origin = some ALLOWED_ORIGIN ∧
      validateRequestBody ev.body = true
  · obtain ⟨hm, ho, hsh⟩ := hg
    obtain ⟨m, orig, b⟩ := ev
    dsimp only at hm ho hsh hb
    subst hm; subst ho; subst hb
    obtain ⟨s, i, x, ho2, hsne, hine⟩ := validateRequestBody_parsed o hsh
    subst ho2
    have hv2 : (validateToken store now (.str s)).1 = false := hv
    rw [getAccessCodeHandler_main s i x store now apiKey fo hsne hine,
      if_pos hv2]
    exact ⟨validateToken_trace_no_provider store now (.str s),
      fun _ _ _ => rfl⟩
  · constructor
    · rw [getAccessCodeHandler_guard_trace ev store now apiKey fo hg]
      rfl
    · intro h1 h2 h3
      exact absurd ⟨h1, h2, h3⟩ hg

/-- C1 witness: a well-formed request carrying a token the store has no
record for is answered with 401 and a trace without any provider call. -/
theorem c1_validator_gates_provider_witness :
    noProviderCall (getAccessCodeHandler
      ⟨"POST", some ALLOWED_ORIGIN, .parsed ⟨.str "missing", .str "t1", []⟩⟩
      wStore 100 (some "key") (FetchOutcome.respOk ⟨none⟩)).2 = true ∧
    (getAccessCodeHandler
      ⟨"POST", some ALLOWED_ORIGIN, .parsed ⟨.str "missing", .str "t1", []⟩⟩
      wStore 100 (some "key") (FetchOutcome.respOk ⟨none⟩)).1 =
      ⟨401, RespBody.message "Invalid or expired token"⟩ := by
  have h := c1_validator_gates_provider
    ⟨"POST", some ALLOWED_ORIGIN, .parsed ⟨.str "missing", .str "t1", []⟩⟩
    wStore 100 (some "key") (FetchOutcome.respOk ⟨none⟩)
    ⟨.str "missing", .str "t1", []⟩ rfl (by decide)
  exact ⟨h.1, h.2 rfl rfl (by decide)⟩

theorem requestAccessCode_trace_shape (apiKey : Option String)
    (fo : FetchOutcome) (i : String) :
    (requestAccessCode apiKey fo i).2 = [] ∨
      (requestAccessCode apiKey fo i).2 = [Effect.providerFetch i ⟨1, false⟩] := by
  unfold requestAccessCode
  by_cases hk : jsTruthy apiKey = false
  · rw [if_pos hk]; exact Or.inl rfl
  · rw [if_neg hk]
    cases fo with
    | thrown msg => exact Or.inr rfl
    | respErr st stt => exact Or.inr rfl
    | respOk data =>
      dsimp only
      by_cases ha : jsTruthy (extractAccessCode data) = true
      · rw [if_pos ha]; exact Or.inr rfl
      · rw [if_neg ha]; exact Or.inr rfl

theorem validateToken_trace_fixed (store : String → LookupResult) (now : Nat)
    (v : JsValue) :
    (validateToken store now v).2.all forwardsFixedPayload = true := by
  rcases validateToken_trace_shape store now v with h | ⟨s, h⟩ <;> rw [h] <;> rfl

theorem requestAccessCode_trace_fixed (apiKey : Option String)
    (fo : FetchOutcome) (i : String) :
    (requestAccessCode apiKey fo i).2.all forwardsFixedPayload = true := by
  rcases requestAccessCode_trace_shape apiKey fo i with h | h <;> rw [h] <;> rfl

theorem getAccessCodeHandler_trace_fixed (ev : ExchangeEvent)
    (store : String → LookupResult) (now : Nat) (apiKey : Option String)
    (fo : FetchOutcome) :
    (getAccessCodeHandler ev store now apiKey fo).2.all forwardsFixedPayload
      = true := by
  by_cases hg : ev.httpMethod = "POST" ∧ ev.origin = some ALLOWED_ORIGIN ∧
      validateRequestBody ev.body = true
  · obtain ⟨hm, ho, hsh⟩ := hg
    obtain ⟨m, orig, b⟩ := ev
    dsimp only at hm ho hsh
    subst hm; subst ho
    cases b with
    | malformed => simp [validateRequestBody] at hsh
    | noBody => simp [validateRequestBody] at hsh
    | nonObject => simp [validateRequestBody] at hsh
    | parsed o =>
      obtain ⟨s, i, x, ho2, hsne, hine⟩ := validateRequestBody_parsed o hsh
      subst ho2
      rw [getAccessCodeHandler_main s i x store now apiKey fo hsne hine]
      by_cases hv : (validateToken store now (.str s)).1 = false
      · rw [if_pos hv]
        exact validateToken_trace_fixed store now (.str s)
      · rw [if_neg hv]
        by_cases hr : (requestAccessCode apiKey fo i).1.success = false
        · rw [if_pos hr]
          dsimp only
          rw [List.all_append, validateToken_trace_fixed,
            requestAccessCode_trace_fixed]
          rfl
        · rw [if_neg hr]
          dsimp only
          rw [List.all_append, validateToken_trace_fixed,
            requestAccessCode_trace_fixed]
          rfl
  · rw [getAccessCodeHandler_guard_trace ev store now apiKey fo hg]
    rfl

/-- C7: with no truthy provider credential configured, an exchange whose
request passed the shape checks and whose token is valid is answered 200
with exactly the mock access code `ABC123MOCK` and the `_dev` flag present,
whatever the testId and whatever the provider oracle would have replied,
and the effect trace contains no provider call. -/
theorem c7_dev_mode_mock (ev : ExchangeEvent) (store : String → LookupResult)
    (now : Nat) (apiKey : Option String) (fo : FetchOutcome) (o : ReqObj)
    (hb : ev.body = .parsed o) (hm : ev.httpMethod = "POST")
    (ho : ev.origin = some ALLOWED_ORIGIN)
    (hsh : validateRequestBody ev.body = true)
    (hv : (validateToken store now o.token).1 = true)
    (hk : jsTruthy apiKey = false) :
    (getAccessCodeHandler ev store now apiKey fo).1 =
      ⟨200, RespBody.access (some MOCK_ACCESS_CODE) true⟩ ∧
    noProviderCall (getAccessCodeHandler ev store now apiKey fo).2 = true := by
  obtain ⟨m, orig, b⟩ := ev
  dsimp only at hm ho hsh hb
  subst hm; subst ho; subst hb
  obtain ⟨s, i, x, ho2, hsne, hine⟩ := validateRequestBody_parsed o hsh
  subst ho2
  have hv2 : (validateToken store now (.str s)).1 = true := hv
  have hr : requestAccessCode apiKey fo i =
      ({ success := true, accessCode := some MOCK_ACCESS_CODE, error := none,
         isDevelopmentMode := true }, []) := by
    unfold requestAccessCode
    rw [if_pos hk]
  rw [getAccessCodeHandler_main s i x store now apiKey fo hsne hine,
    if_neg (by rw [hv2]; exact fun hc => Bool.noConfusion hc), hr]
  refine ⟨rfl, ?_⟩
  dsimp only
  rw [List.append_nil]
  simpa [noProviderCall] using
    validateToken_trace_no_provider store now (.str s)

/-- C7 witness: a valid token exchanged with a bogus testId while no
credential is configured yields `accessCode = ABC123MOCK` with `_dev`,
even though the provider oracle would have answered HTTP 500. -/
theorem c7_dev_mode_mock_witness :
    (getAccessCodeHandler
      ⟨"POST", some ALLOWED_ORIGIN, .parsed ⟨.str "goodtok", .str "bogus", []⟩⟩
      wStore 100 none (FetchOutcome.respErr 500 "Internal Server Error")).1 =
      ⟨200, RespBody.access (some MOCK_ACCESS_CODE) true⟩ ∧
    noProviderCall (getAccessCodeHandler
      ⟨"POST", some ALLOWED_ORIGIN, .parsed ⟨.str "goodtok", .str "bogus", []⟩⟩
      wStore 100 none (FetchOutcome.respErr 500 "Internal Server Error")).2
      = true :=
  c7_dev_mode_mock
    ⟨"POST", some ALLOWED_ORIGIN, .parsed ⟨.str "goodtok", .str "bogus", []⟩⟩
    wStore 100 none (FetchOutcome.respErr 500 "Internal Server Error")
    ⟨.str "goodtok", .str "bogus", []⟩ rfl rfl rfl (by decide) (by decide) rfl

/-- C8: a provider failure is converted, not thrown, into a 502 response
whose error detail captures the upstream status: on a non-success HTTP
reply the handler returns 502 with the upstream status and statusText in
the error string, on a success reply lacking every recognized access-code
field it returns 502 with the missing-code error, and the 502 category is
distinct from the 401 Unauthorized and 400 BadRequest categories. -/
theorem c8_upstream_failure_502 :
    (∀ (ev : ExchangeEvent) (store : String → LookupResult) (now : Nat)
       (apiKey : Option String) (status : Nat) (statusText : String)
       (o : ReqObj), ev.body = .parsed o → ev.httpMethod = "POST" →
       ev.origin = some ALLOWED_ORIGIN → validateRequestBody ev.body = true →
       (validateToken store now o.token).1 = true → jsTruthy apiKey = true →
       (getAccessCodeHandler ev store now apiKey
           (.respErr status statusText)).1 =
         ⟨502, RespBody.messageErr "Failed to retrieve access code from TestPortal"
           (some ("TestPortal API returned " ++ toString status ++ ": "
             ++ statusText))⟩) ∧
    (∀ (ev : ExchangeEvent) (store : String → LookupResult) (now : Nat)
       (apiKey : Option String) (data : TestPortalApiResponse) (o : ReqObj),
       ev.body = .parsed o → ev.httpMethod = "POST" →
       ev.origin = some ALLOWED_ORIGIN → validateRequestBody ev.body = true →
       (validateToken store now o.token).1 = true → jsTruthy apiKey = true →
       jsTruthy (extractAccessCode data) = false →
       (getAccessCodeHandler ev store now apiKey (.respOk data)).1 =
         ⟨502, RespBody.messageErr "Failed to retrieve access code from TestPortal"
           (some "TestPortal API response did not contain an access code")⟩) ∧
    ((502 : Nat) ≠ 401 ∧ (502 : Nat) ≠ 400) := by
  refine ⟨?_, ?_, by decide, by decide⟩
  · intro ev store now apiKey status statusText o hb hm ho hsh hv hk
    obtain ⟨m, orig, b⟩ := ev
    dsimp only at hm ho hsh hb
    subst hm; subst ho; subst hb
    obtain ⟨s, i, x, ho2, hsne, hine⟩ := validateRequestBody_parsed o hsh
    subst ho2
    have hv2 : (validateToken store now (.str s)).1 = true := hv
    have hr : requestAccessCode apiKey (.respErr status statusText) i =
        ({ success := false, accessCode := none,
           error := some ("TestPortal API returned " ++ toString status ++ ": "
             ++ statusText), isDevelopmentMode := false },
         [Effect.providerFetch i ⟨1, false⟩]) := by
      unfold requestAccessCode
      rw [if_neg (by rw [hk]; exact fun hc => Bool.noConfusion hc)]
    rw [getAccessCodeHandler_main s i x store now apiKey
        (.respErr status statusText) hsne hine,
      if_neg (by rw [hv2]; exact fun hc => Bool.noConfusion hc), hr]
    rfl
  · intro ev store now apiKey data o hb hm ho hsh hv hk ha
    obtain ⟨m, orig, b⟩ := ev
    dsimp only at hm ho hsh hb
    subst hm; subst ho; subst hb
    obtain ⟨s, i, x, ho2, hsne, hine⟩ := validateRequestBody_parsed o hsh
    subst ho2
    have hv2 : (validateToken store now (.str s)).1 = true := hv
    have hr : requestAccessCode apiKey (.respOk data) i =
        ({ success := false, accessCode := none,
           error := some "TestPortal API response did not contain an access code",
           isDevelopmentMode := false },
         [Effect.providerFetch i ⟨1, false⟩]) := by
      unfold requestAccessCode
      rw [if_neg (by rw [hk]; exact fun hc => Bool.noConfusion hc)]
      dsimp only
      rw [if_neg (by rw [ha]; exact fun hc => Bool.noConfusion hc)]
    rw [getAccessCodeHandler_main s i x store now apiKey (.respOk data)
        hsne hine,
      if_neg (by rw [hv2]; exact fun hc => Bool.noConfusion hc), hr]
    rfl

/-- C8 witness: with a credential configured and the provider replying
HTTP 500, a well-formed exchange of a valid token yields a 502 whose error
detail carries the upstream status, and a success reply whose body has no
recognized access-code field also yields a 502. -/
theorem c8_upstream_failure_502_witness :
    (getAccessCodeHandler
      ⟨"POST", some ALLOWED_ORIGIN, .parsed ⟨.str "goodtok", .str "t1", []⟩⟩
      wStore 100 (some "key") (FetchOutcome.respErr 500 "Internal Server Error")).1 =
      ⟨502, RespBody.messageErr "Failed to retrieve access code from TestPortal"
        (some "TestPortal API returned 500: Internal Server Error")⟩ ∧
    (getAccessCodeHandler
      ⟨"POST", some ALLOWED_ORIGIN, .parsed ⟨.str "goodtok", .str "t1", []⟩⟩
      wStore 100 (some "key") (FetchOutcome.respOk ⟨some []⟩)).1 =
      ⟨502, RespBody.messageErr "Failed to retrieve access code from TestPortal"
        (some "TestPortal API response did not contain an access code")⟩ := by
  constructor
  · have h := c8_upstream_failure_502.1
      ⟨"POST", some ALLOWED_ORIGIN, .parsed ⟨.str "goodtok", .str "t1", []⟩⟩
      wStore 100 (some "key") 500 "Internal Server Error"
      ⟨.str "goodtok", .str "t1", []⟩ rfl rfl rfl (by decide) (by decide) rfl
    simpa using h
  · exact c8_upstream_failure_502.2.1
      ⟨"POST", some ALLOWED_ORIGIN, .parsed ⟨.str "goodtok", .str "t1", []⟩⟩
      wStore 100 (some "key") ⟨some []⟩
      ⟨.str "goodtok", .str "t1", []⟩ rfl rfl rfl (by decide) (by decide) rfl
      (by decide)

/-- C10: the exchange response is a function of the `token` and `testId`
fields alone (given the same store, time, credential and provider reply):
two parsed bodies that agree on `token` and `testId` but differ in
arbitrary extra fields produce identical responses and identical effect
traces; and every provider call in any trace posts exactly the constant
payload `{count: 1, sendInvitationOnTestActivation: false}`, so no body
field is forwarded to the provider. -/
theorem c10_response_ignores_extra_fields :
    (∀ (m : String) (orig : Option String) (t i : JsValue)
       (x1 x2 : List (String × JsValue)) (store : String → LookupResult)
       (now : Nat) (apiKey : Option String) (fo : FetchOutcome),
       getAccessCodeHandler ⟨m, orig, .parsed ⟨t, i, x1⟩⟩ store now apiKey fo =
         getAccessCodeHandler ⟨m, orig, .parsed ⟨t, i, x2⟩⟩ store now apiKey fo) ∧
    (∀ (ev : ExchangeEvent) (store : String → LookupResult) (now : Nat)
       (apiKey : Option String) (fo : FetchOutcome),
       (getAccessCodeHandler ev store now apiKey fo).2.all forwardsFixedPayload
         = true) :=
  ⟨fun _ _ _ _ _ _ _ _ _ _ => rfl,
   getAccessCodeHandler_trace_fixed⟩

/-- C5: no orphan tokens.  Whenever the issuance handler's response carries
a token, that token is the generated one, the store write succeeded, and
the store afterwards holds the record `createdAt = now`,
`ttl = now + TOKEN_TTL_SECONDS` under that token; whenever the store write
fails, the response carries no token, the store is unchanged, and (for a
request that passed the method and origin checks) the status is the 500
store-failure error; and the TTL constant is 900 seconds. -/
theorem c5_no_orphan_tokens :
    (∀ (ev : TokenEvent) (now : Nat) (tok : String)
       (writeRes : Except (Option String) Unit)
       (store : String → LookupResult) (t : String),
       (requestTokenHandler ev now tok writeRes store).1.body = .token t →
       t = tok ∧ writeRes = .ok () ∧
       (requestTokenHandler ev now tok writeRes store).2.1 tok =
         .found { ttl := some (now + TOKEN_TTL_SECONDS), createdAt := some now }) ∧
    (∀ (ev : TokenEvent) (now : Nat) (tok : String) (e : Option String)
       (store : String → LookupResult),
       (requestTokenHandler ev now tok (.error e) store).1.body.isTokenBody
           = false ∧
       (requestTokenHandler ev now tok (.error e) store).2.1 = store ∧
       (ev.httpMethod = "POST" → ev.origin = some ALLOWED_ORIGIN →
         (requestTokenHandler ev now tok (.error e) store).1.statusCode = 500)) ∧
    TOKEN_TTL_SECONDS = 900 := by
  refine ⟨?_, ?_, rfl⟩
  · intro ev now tok writeRes store t h
    obtain ⟨m, orig⟩ := ev
    unfold requestTokenHandler at h ⊢
    dsimp only at h ⊢
    by_cases h1 : m = "OPTIONS"
    · rw [if_pos h1] at h; exact absurd h (by simp)
    · rw [if_neg h1] at h ⊢
      by_cases h2 : m = "POST"
      · subst h2
        rw [if_neg (show ¬(("POST" : String) ≠ "POST") from fun hc => hc rfl)]
          at h ⊢
        by_cases h3 : orig = some ALLOWED_ORIGIN
        · subst h3
          rw [if_neg (show ¬(some ALLOWED_ORIGIN ≠ some ALLOWED_ORIGIN) from
            fun hc => hc rfl)] at h ⊢
          cases writeRes with
          | ok u =>
            cases u
            dsimp only at h ⊢
            have ht : t = tok := by
              have := h
              simp only [RespBody.token.injEq] at this
              exact this.symm
            refine ⟨ht, rfl, ?_⟩
            rw [if_pos rfl]
            rfl
          | error e => exact absurd h (by simp)
        · rw [if_pos h3] at h; exact absurd h (by simp)
      · rw [if_pos h2] at h; exact absurd h (by simp)
  · intro ev now tok e store
    obtain ⟨m, orig⟩ := ev
    unfold requestTokenHandler
    dsimp only
    by_cases h1 : m = "OPTIONS"
    · rw [if_pos h1]
      exact ⟨rfl, rfl, fun hm _ => absurd (h1 ▸ hm) (by decide)⟩
    · rw [if_neg h1]
      by_cases h2 : m = "POST"
      · subst h2
        rw [if_neg (show ¬(("POST" : String) ≠ "POST") from fun hc => hc rfl)]
        by_cases h3 : orig = some ALLOWED_ORIGIN
        · subst h3
          rw [if_neg (show ¬(some ALLOWED_ORIGIN ≠ some ALLOWED_ORIGIN) from
            fun hc => hc rfl)]
          exact ⟨rfl, rfl, fun _ _ => rfl⟩
        · rw [if_pos h3]
          exact ⟨rfl, rfl, fun _ ho => absurd ho h3⟩
      · rw [if_pos h2]
        exact ⟨rfl, rfl, fun hm _ => absurd hm h2⟩

/-- C5 witness: a successful issuance at time 100 answers 200 with the
generated token and leaves its record in the store, and a failed store
write at the same input answers 500 with no token in the body. -/
theorem c5_no_orphan_tokens_witness :
    ((("fresh1" : String) = "fresh1") ∧ Except.ok () = (.ok () :
        Except (Option String) Unit) ∧
      (requestTokenHandler ⟨"POST", some ALLOWED_ORIGIN⟩ 100 "fresh1"
        (.ok ()) (fun _ => .notFound)).2.1 "fresh1" =
        .found { ttl := some (100 + TOKEN_TTL_SECONDS), createdAt := some 100 }) ∧
    ((requestTokenHandler ⟨"POST", some ALLOWED_ORIGIN⟩ 100 "fresh1"
        (.error (some "boom")) (fun _ => .notFound)).1.body.isTokenBody
        = false ∧
      (requestTokenHandler ⟨"POST", some ALLOWED_ORIGIN⟩ 100 "fresh1"
        (.error (some "boom")) (fun _ => .notFound)).1.statusCode = 500) := by
  constructor
  · exact c5_no_orphan_tokens.1 ⟨"POST", some ALLOWED_ORIGIN⟩ 100 "fresh1"
      (.ok ()) (fun _ => .notFound) "fresh1" rfl
  · refine ⟨(c5_no_orphan_tokens.2.1 ⟨"POST", some ALLOWED_ORIGIN⟩ 100 "fresh1"
      (some "boom") (fun _ => .notFound)).1, ?_⟩
    exact (c5_no_orphan_tokens.2.1 ⟨"POST", some ALLOWED_ORIGIN⟩ 100 "fresh1"
      (some "boom") (fun _ => .notFound)).2.2 rfl rfl

/-- C9 counterexample: the secret cache is never revalidated within an
instance.  Starting from an empty cache, a first `getSecret` call fetches
and caches the backing value `v1`; after the backing value rotates to
`v2`, the second call for the same name still returns `v1`, not the new
value — so a rotation is not picked up without a fresh instance (the
behavior of the two-call sequence is deterministic, so no such sequence
returns the rotated value). -/
theorem c9_rotation_not_picked_up :
    (getSecret [] (.value "v1") "name").1 = some "v1" ∧
    (getSecret (getSecret [] (.value "v1") "name").2.1
      (.value "v2") "name").1 = some "v1" ∧
    (getSecret (getSecret [] (.value "v1") "name").2.1
      (.value "v2") "name").1 ≠ some "v2" := by
  decide

/-- C9 (amended): `getSecret` memoizes per secret name for the lifetime of
the serving instance with no time box: once a name is cached, every later
call in that instance returns the cached value without contacting the
backing store, whatever the backing value now is — so a rotation of the
backing secret is only observed by a call whose name is not yet cached
(a fresh instance, or after an earlier lookup that returned no value, which
is never cached). -/
theorem c9_cache_is_instance_lifetime :
    (∀ (cache : List (String × String)) (backing : BackingSecret)
       (name v : String), cache.lookup name = some v →
       getSecret cache backing name = (some v, cache, [])) ∧
    (∀ (cache : List (String × String)) (name v : String),
       cache.lookup name = none → v ≠ "" →
       getSecret cache (.value v) name =
         (some v, (name, v) :: cache, [.secretFetch name])) ∧
    (∀ (cache : List (String × String)) (name : String),
       cache.lookup name = none →
       (getSecret cache .notFoundExc name).1 = none ∧
       (getSecret cache .notFoundExc name).2.1 = cache) := by
  refine ⟨?_, ?_, ?_⟩
  · intro cache backing name v h
    unfold getSecret
    rw [h]
  · intro cache name v h hv
    unfold getSecret
    rw [h]
    dsimp only
    rw [if_neg hv]
  · intro cache name h
    unfold getSecret
    rw [h]
    exact ⟨rfl, rfl⟩

/-- C9 amended-claim witness: with "n" cached at "v1", a later call
returns "v1" whatever the backing store now holds; an uncached name is
fetched and cached; a failed lookup caches nothing. -/
theorem c9_cache_is_instance_lifetime_witness :
    getSecret [("n", "v1")] (.value "v2") "n" = (some "v1", [("n", "v1")], []) ∧
    getSecret [] (.value "v2") "m" =
      (some "v2", [("m", "v2")], [.secretFetch "m"]) ∧
    ((getSecret [] .notFoundExc "k").1 = none ∧
      (getSecret [] .notFoundExc "k").2.1 = []) :=
  ⟨c9_cache_is_instance_lifetime.1 [("n", "v1")] (.value "v2") "n" "v1"
    (by decide),
   c9_cache_is_instance_lifetime.2.1 [] "m" "v2" rfl (by decide),
   c9_cache_is_instance_lifetime.2.2 [] "k" rfl⟩

end IceTestPortal
